import Mathlib

/-!
# Verification of the python-colormath conversion engine

A shallow embedding, over `ℚ`, of the color-space conversion engine of
python-colormath: the conversion graph and its breadth-first path resolution
(`color_conversions.py`, `GraphConversionManager`), the conversion executor
(`convert_color`), the individual conversion primitives registered on the
graph, and the legacy `ColorBase.convert_to` / `RGBColor` hex machinery of
`color_objects.py`.

Transcendental library calls (`math.pow`, `math.sqrt`, `math.atan2`, ...)
and the out-of-scope external numeric tables (chromatic-adaptation
transforms, spectral standard-observer tables, IPT matrices) are passed in
as an explicit `Ext` record of external collaborators, mirroring the fact
that the conversion formulas call into `math`/`numpy`/constant tables that
are external to the graph engine.  All control flow, metadata threading,
clamping, validation and error behaviour is embedded concretely.
-/

namespace Colormath

/-- The concrete RGB profile classes imported by `color_conversions.py`
(`sRGBColor`, `AdobeRGBColor`).  The module's `_RGB_SPACES` list contains
exactly these two concrete profiles. -/
inductive RGBT where
  | srgb
  | adobe
deriving DecidableEq, BEq, Repr

/-- Modelled from the spec: each RGB profile carries a gamma exponent.
The concrete values (2.2 for both sRGB and Adobe RGB) are those of
`RGB_SPECS` in `color_constants.py`. -/
def rgbGamma : RGBT → ℚ
  | .srgb => 11/5
  | .adobe => 11/5

/-- Modelled from the spec: each RGB profile carries a native illuminant.
Both sRGB and Adobe RGB are native D65 (`RGB_SPECS` in
`color_constants.py`). -/
def nativeIlluminant : RGBT → String
  | .srgb => "d65"
  | .adobe => "d65"

/-- A 3x3 matrix of rationals, row major. -/
def Mat3 : Type := (ℚ × ℚ × ℚ) × (ℚ × ℚ × ℚ) × (ℚ × ℚ × ℚ)

/-- The two conversion-matrix keys used by `apply_RGB_matrix`
(`"xyz_to_rgb"` / `"rgb_to_xyz"`). -/
inductive ConvType where
  | xyzToRgb
  | rgbToXyz
deriving DecidableEq, BEq

/-- Modelled from the spec: the per-profile `conversion_matrices` tables
looked up by `apply_RGB_matrix` live on the RGB color classes in
`color_objects.py`, which is not under `src/`.  The numeric entries are
the RGB working-space matrices of `RGB_SPECS` in `color_constants.py`
(under `src/`), oriented row-major as consumed by
`numpy.dot(rgb_matrix, var_matrix)`. -/
def conversionMatrices : RGBT → ConvType → Mat3
  | .srgb, .xyzToRgb =>
    ((324071/100000, -153726/100000, -498571/1000000),
     (-969258/1000000, 187599/100000, 415557/10000000),
     (556352/10000000, -203996/1000000, 105707/100000))
  | .srgb, .rgbToXyz =>
    ((412424/1000000, 357579/1000000, 180464/1000000),
     (212656/1000000, 715158/1000000, 721856/10000000),
     (193324/10000000, 119193/1000000, 950444/1000000))
  | .adobe, .xyzToRgb =>
    ((204148/100000, -564977/1000000, -344713/1000000),
     (-969258/1000000, 187599/100000, 415557/10000000),
     (134455/10000000, -118373/1000000, 101527/100000))
  | .adobe, .rgbToXyz =>
    ((576700/1000000, 185556/1000000, 188212/1000000),
     (297361/1000000, 627355/1000000, 752847/10000000),
     (270328/10000000, 706879/10000000, 991248/1000000))

/-- Matrix-vector product, the `numpy.dot(rgb_matrix, var_matrix)` of
`apply_RGB_matrix` before any clamping. -/
def matVec (m : Mat3) (v : ℚ × ℚ × ℚ) : ℚ × ℚ × ℚ :=
  (m.1.1 * v.1 + m.1.2.1 * v.2.1 + m.1.2.2 * v.2.2,
   m.2.1.1 * v.1 + m.2.1.2.1 * v.2.1 + m.2.1.2.2 * v.2.2,
   m.2.2.1 * v.1 + m.2.2.2.1 * v.2.1 + m.2.2.2.2 * v.2.2)

/-- `apply_RGB_matrix` (`color_conversions.py`, lines 29-53): applies the
profile's working matrix and then clamps each resulting component from
below at 0.0 (`rgb_r = max(rgb_r, 0.0)` etc.). -/
def apply_RGB_matrix (var1 var2 var3 : ℚ) (rgb_type : RGBT)
    (convtype : ConvType) : ℚ × ℚ × ℚ :=
  let rgb_matrix := conversionMatrices rgb_type convtype
  let result := matVec rgb_matrix (var1, var2, var3)
  (max result.1 0, max result.2.1 0, max result.2.2 0)

/-- The normalised color-space graph nodes: one per color-space class
registered in `color_conversions.py`, with all concrete RGB profile
classes collapsed onto the single `BaseRGBColor` node. -/
inductive Space where
  | Spectral
  | XYZ
  | XyY
  | Lab
  | LCHab
  | LCHuv
  | Luv
  | BaseRGB
  | HSV
  | HSL
  | CMY
  | CMYK
  | IPT
deriving DecidableEq, BEq, Repr

/-- Concrete color-space types as supplied by callers of
`get_conversion_path` / `convert_color`: the non-RGB spaces plus each
concrete RGB profile subtype. -/
inductive CType where
  | spectralT
  | xyzT
  | xyyT
  | labT
  | lchabT
  | lchuvT
  | luvT
  | hsvT
  | hslT
  | cmyT
  | cmykT
  | iptT
  | rgbT (t : RGBT)
deriving DecidableEq, BEq, Repr

/-- `ConversionManager._normalise_type`: a concrete RGB-profile subtype is
replaced by the canonical `BaseRGBColor` node, every other type is kept. -/
def normaliseType : CType → Space
  | .spectralT => .Spectral
  | .xyzT => .XYZ
  | .xyyT => .XyY
  | .labT => .Lab
  | .lchabT => .LCHab
  | .lchuvT => .LCHuv
  | .luvT => .Luv
  | .hsvT => .HSV
  | .hslT => .HSL
  | .cmyT => .CMY
  | .cmykT => .CMYK
  | .iptT => .IPT
  | .rgbT _ => .BaseRGB

/-- Python class name of a normalised graph node, as it appears in the
`UndefinedConversionError` message. -/
def spaceName : Space → String
  | .Spectral => "SpectralColor"
  | .XYZ => "XYZColor"
  | .XyY => "xyYColor"
  | .Lab => "LabColor"
  | .LCHab => "LCHabColor"
  | .LCHuv => "LCHuvColor"
  | .Luv => "LuvColor"
  | .BaseRGB => "BaseRGBColor"
  | .HSV => "HSVColor"
  | .HSL => "HSLColor"
  | .CMY => "CMYColor"
  | .CMYK => "CMYKColor"
  | .IPT => "IPTColor"

/-- Python class name of a concrete requested type. -/
def ctypeName : CType → String
  | .rgbT .srgb => "sRGBColor"
  | .rgbT .adobe => "AdobeRGBColor"
  | t => spaceName (normaliseType t)

/-- The registered conversion functions, one identifier per function
carrying the `@color_conversion_function` decorator in
`color_conversions.py`. -/
inductive PrimId where
  | spectralToXYZ
  | labToLCHab
  | labToXYZ
  | luvToLCHuv
  | luvToXYZ
  | lchabToLab
  | lchuvToLuv
  | xyyToXYZ
  | xyzToXyy
  | xyzToLuv
  | xyzToLab
  | xyzToRGB
  | rgbToXYZ
  | rgbToHSV
  | rgbToHSL
  | hsvToRGB
  | hslToRGB
  | rgbToCMY
  | cmyToRGB
  | cmyToCMYK
  | cmykToCMY
  | xyzToIPT
  | iptToXYZ
deriving DecidableEq, BEq, Repr

/-- A directed graph with edge labels of type `P`: the
`networkx.DiGraph` of `GraphConversionManager`, kept as the list of
`(start, target, conversion_function)` edges in insertion order. -/
def Graph (P : Type) : Type := List (Space × Space × P)

/-- `networkx.DiGraph.add_edge` semantics as used by
`GraphConversionManager.add_type_conversion`: adding an edge that already
exists overwrites its `conversion_function` attribute in place; a new
edge is appended. -/
def addEdge {P : Type} (g : Graph P) (s t : Space) (f : P) : Graph P :=
  match g with
  | [] => [(s, t, f)]
  | (a, b, p) :: rest =>
    if a = s ∧ b = t then (s, t, f) :: rest
    else (a, b, p) :: addEdge rest s t f

/-- `conversion_graph.get_edge_data(a, b)['conversion_function']`. -/
def edgeData {P : Type} (g : Graph P) (a b : Space) : Option P :=
  match g with
  | [] => none
  | (x, y, p) :: rest => if x = a ∧ y = b then some p else edgeData rest a b

/-- Whether the graph has a directed edge from `a` to `b`. -/
def hasEdge {P : Type} (g : Graph P) (a b : Space) : Bool :=
  (edgeData g a b).isSome

/-- The nodes of the graph (sources and targets of its edges). -/
def graphNodes {P : Type} (g : Graph P) : List Space :=
  g.foldr (fun (e : Space × Space × P) acc => e.1 :: e.2.1 :: acc) []

/-- Out-neighbours of a node in edge-insertion order (the adjacency view
`networkx` iterates during breadth-first search). -/
def adjacency {P : Type} (g : Graph P) (n : Space) : List Space :=
  g.foldr (fun (e : Space × Space × P) acc =>
    if e.1 = n then e.2.1 :: acc else acc) []

/-- Breadth-first search for a node path, queue of reversed paths with
visited marking at enqueue time; `fuel` bounds the number of dequeues
(any value above the node count suffices). -/
def bfsPaths {P : Type} (g : Graph P) (target : Space) :
    Nat → List (List Space) → List Space → Option (List Space)
  | 0, _, _ => none
  | _ + 1, [], _ => none
  | fuel + 1, path :: queue, visited =>
    match path with
    | [] => bfsPaths g target fuel queue visited
    | cur :: _ =>
      if cur = target then some path.reverse
      else
        let nexts := (adjacency g cur).filter (fun n => ¬ visited.contains n)
        bfsPaths g target fuel (queue ++ nexts.map (· :: path))
          (visited ++ nexts)

/-- `networkx.shortest_path(G, s, t)` for the unweighted digraph: the node
sequence of a shortest directed path, `[s]` when `s = t`; `none` when no
path exists or a node is absent from the graph
(`NetworkXNoPath` / `NodeNotFound`). -/
def shortestNodePath {P : Type} (g : Graph P) (s t : Space) :
    Option (List Space) :=
  if (graphNodes g).contains s ∧ (graphNodes g).contains t then
    bfsPaths g t (50 : Nat) [[s]] [s]
  else
    none

/-- `GraphConversionManager._find_shortest_path`: the node path, converted
to the list of `conversion_function` edge labels of its consecutive
pairs. -/
def findShortestPath {P : Type} (g : Graph P) (s t : Space) :
    Option (List P) :=
  match shortestNodePath g s t with
  | none => none
  | some path =>
    (path.zip path.tail).mapM (fun ab => edgeData g ab.1 ab.2)

/-- `UndefinedConversionError` payload.  Modelled from the spec: the
exception class lives in the modern `color_exceptions.py`, absent from
`src/`; per the spec it names both endpoint types of the failed
resolution.  `get_conversion_path` raises it with the two (already
normalised) type variables. -/
structure UndefinedConversion where
  fromName : String
  toName : String
deriving DecidableEq, BEq, Repr

/-- `GraphConversionManager.get_conversion_path`: normalise both endpoint
types, search, and on failure raise `UndefinedConversionError` carrying
the two normalised types. -/
def getConversionPathG {P : Type} (g : Graph P) (start_type target_type : CType) :
    Except UndefinedConversion (List P) :=
  let s := normaliseType start_type
  let t := normaliseType target_type
  match findShortestPath g s t with
  | some fs => .ok fs
  | none => .error ⟨spaceName s, spaceName t⟩

/-- The edges registered by the `@color_conversion_function` decorators of
`color_conversions.py`, in source order. -/
def registrations : List (Space × Space × PrimId) :=
  [(.Spectral, .XYZ, .spectralToXYZ),
   (.Lab, .LCHab, .labToLCHab),
   (.Lab, .XYZ, .labToXYZ),
   (.Luv, .LCHuv, .luvToLCHuv),
   (.Luv, .XYZ, .luvToXYZ),
   (.LCHab, .Lab, .lchabToLab),
   (.LCHuv, .Luv, .lchuvToLuv),
   (.XyY, .XYZ, .xyyToXYZ),
   (.XYZ, .XyY, .xyzToXyy),
   (.XYZ, .Luv, .xyzToLuv),
   (.XYZ, .Lab, .xyzToLab),
   (.XYZ, .BaseRGB, .xyzToRGB),
   (.BaseRGB, .XYZ, .rgbToXYZ),
   (.BaseRGB, .HSV, .rgbToHSV),
   (.BaseRGB, .HSL, .rgbToHSL),
   (.HSV, .BaseRGB, .hsvToRGB),
   (.HSL, .BaseRGB, .hslToRGB),
   (.BaseRGB, .CMY, .rgbToCMY),
   (.CMY, .BaseRGB, .cmyToRGB),
   (.CMY, .CMYK, .cmyToCMYK),
   (.CMYK, .CMY, .cmykToCMY),
   (.XYZ, .IPT, .xyzToIPT),
   (.IPT, .XYZ, .iptToXYZ)]

/-- The module-level `_conversion_manager` graph after import of
`color_conversions.py`: all decorator registrations applied in order. -/
def conversionGraph : Graph PrimId :=
  registrations.foldl (fun g e => addEdge g e.1 e.2.1 e.2.2) []

/-- Path resolution against the module's conversion graph. -/
def getConversionPath (s t : CType) : Except UndefinedConversion (List PrimId) :=
  getConversionPathG conversionGraph s t

/-- External collaborators of the conversion primitives: the
transcendental `math` library calls, the chromatic-adaptation transform
(`chromatic_adaptation.py`, numpy pseudo-inverse arithmetic), the spectral
standard-observer / reference-illuminant tables (`spectral_constants.py`,
not under `src/`) and the IPT matrices (modern `color_objects.py`, not
under `src/`).  The spec treats all of these as out-of-scope leaf
formulas specified only by their interface, so they are threaded through
as an explicit record. -/
structure Ext where
  epow : ℚ → ℚ → ℚ
  esqrt : ℚ → ℚ
  eatan2 : ℚ → ℚ → ℚ
  ecos : ℚ → ℚ
  esin : ℚ → ℚ
  epi : ℚ
  eradians : ℚ → ℚ
  adapt : ℚ → ℚ → ℚ → String → String → ℚ × ℚ × ℚ
  xyzToIptM : ℚ → ℚ → ℚ → ℚ × ℚ × ℚ
  iptToXyzM : ℚ → ℚ → ℚ → ℚ × ℚ × ℚ
  refIllumTable : String → Option (List ℚ)
  stdObsX2 : List ℚ
  stdObsY2 : List ℚ
  stdObsZ2 : List ℚ
  stdObsX10 : List ℚ
  stdObsY10 : List ℚ
  stdObsZ10 : List ℚ

/-- A concrete placeholder instance of the external collaborators, used
only to instantiate executor runs whose stated properties do not depend
on the external formula values. -/
def extZero : Ext where
  epow := fun _ _ => 0
  esqrt := fun _ => 0
  eatan2 := fun _ _ => 0
  ecos := fun _ => 0
  esin := fun _ => 0
  epi := 0
  eradians := fun _ => 0
  adapt := fun x y z _ _ => (x, y, z)
  xyzToIptM := fun _ _ _ => (0, 0, 0)
  iptToXyzM := fun _ _ _ => (0, 0, 0)
  refIllumTable := fun _ => some []
  stdObsX2 := []
  stdObsY2 := []
  stdObsZ2 := []
  stdObsX10 := []
  stdObsY10 := []
  stdObsZ10 := []

instance {ε α : Type} [DecidableEq ε] [DecidableEq α] : DecidableEq (Except ε α) :=
  fun x y =>
    match x, y with
    | .ok a, .ok b =>
      if h : a = b then .isTrue (congrArg Except.ok h)
      else .isFalse fun he => h (Except.ok.inj he)
    | .error a, .error b =>
      if h : a = b then .isTrue (congrArg Except.error h)
      else .isFalse fun he => h (Except.error.inj he)
    | .ok _, .error _ => .isFalse fun he => Except.noConfusion he
    | .error _, .ok _ => .isFalse fun he => Except.noConfusion he

/-- Errors surfaced by the embedded conversion pipeline. -/
inductive CErr where
  | invalidObserver
  | invalidIlluminant
  | zeroDivision
  | valueError
  | typeError
deriving DecidableEq, BEq, Repr

/-- Division that fails, like Python float division, when the denominator
is zero. -/
def divE (a b : ℚ) : Except CErr ℚ :=
  if b = 0 then .error .zeroDivision else .ok (a / b)

/-- `color_constants.CIE_E`. -/
def CIE_E : ℚ := 216 / 24389

/-- `color_constants.CIE_K`. -/
def CIE_K : ℚ := 24389 / 27

/-- `color_constants.ILLUMINANTS` (`src/colormath/color_constants.py`,
lines 112-127): reference-white XYZ triples by observer then
illuminant. -/
def illuminantsTable (observer illuminant : String) : Option (ℚ × ℚ × ℚ) :=
  if observer = "2" then
    if illuminant = "d50" then some (9642/100, 100, 8252/100)
    else if illuminant = "d55" then some (9568/100, 100, 9215/100)
    else if illuminant = "d65" then some (9505/100, 100, 10888/100)
    else if illuminant = "d75" then some (9497/100, 100, 12264/100)
    else none
  else if observer = "10" then
    if illuminant = "d50" then some (9672/100, 100, 8143/100)
    else if illuminant = "d55" then some (958/10, 100, 9093/100)
    else if illuminant = "d65" then some (9481/100, 100, 1073/10)
    else if illuminant = "d75" then some (94416/1000, 100, 12064/100)
    else none
  else none

/-- `get_illuminant_xyz` (`color_objects.py`, lines 194-220): look up the
observer table (unknown observer raises `InvalidObserver`), then the
illuminant entry (unknown illuminant raises `InvalidIlluminant`). -/
def getIlluminantXYZ (observer illuminant : String) : Except CErr (ℚ × ℚ × ℚ) :=
  if observer ≠ "2" ∧ observer ≠ "10" then .error .invalidObserver
  else
    match illuminantsTable observer illuminant with
    | none => .error .invalidIlluminant
    | some v => .ok v

/-- An XYZ color value: coordinates plus illuminant/observer metadata. -/
structure XYZv where
  xyz_x : ℚ
  xyz_y : ℚ
  xyz_z : ℚ
  illuminant : String
  observer : String
deriving DecidableEq, BEq, Repr

/-- An xyY color value. -/
structure XyYv where
  xyy_x : ℚ
  xyy_y : ℚ
  xyy_Y : ℚ
  illuminant : String
  observer : String
deriving DecidableEq, BEq, Repr

/-- A Lab color value. -/
structure Labv where
  lab_l : ℚ
  lab_a : ℚ
  lab_b : ℚ
  illuminant : String
  observer : String
deriving DecidableEq, BEq, Repr

/-- An LCHab color value. -/
structure LCHabv where
  lch_l : ℚ
  lch_c : ℚ
  lch_h : ℚ
  illuminant : String
  observer : String
deriving DecidableEq, BEq, Repr

/-- An LCHuv color value. -/
structure LCHuvv where
  lch_l : ℚ
  lch_c : ℚ
  lch_h : ℚ
  illuminant : String
  observer : String
deriving DecidableEq, BEq, Repr

/-- A Luv color value. -/
structure Luvv where
  luv_l : ℚ
  luv_u : ℚ
  luv_v : ℚ
  illuminant : String
  observer : String
deriving DecidableEq, BEq, Repr

/-- A spectral color value: its wavelength-band samples in `VALUES` order
plus illuminant/observer metadata. -/
structure Spectralv where
  bands : List ℚ
  illuminant : String
  observer : String
deriving DecidableEq, BEq, Repr

/-- An RGB color value of a concrete profile class. -/
structure RGBv where
  rgb_r : ℚ
  rgb_g : ℚ
  rgb_b : ℚ
  space : RGBT
deriving DecidableEq, BEq, Repr

/-- An HSL color value. -/
structure HSLv where
  hsl_h : ℚ
  hsl_s : ℚ
  hsl_l : ℚ
deriving DecidableEq, BEq, Repr

/-- An HSV color value. -/
structure HSVv where
  hsv_h : ℚ
  hsv_s : ℚ
  hsv_v : ℚ
deriving DecidableEq, BEq, Repr

/-- A CMY color value. -/
structure CMYv where
  cmy_c : ℚ
  cmy_m : ℚ
  cmy_y : ℚ
deriving DecidableEq, BEq, Repr

/-- A CMYK color value. -/
structure CMYKv where
  cmyk_c : ℚ
  cmyk_m : ℚ
  cmyk_y : ℚ
  cmyk_k : ℚ
deriving DecidableEq, BEq, Repr

/-- An IPT color value. -/
structure IPTv where
  ipt_i : ℚ
  ipt_p : ℚ
  ipt_t : ℚ
deriving DecidableEq, BEq, Repr

/-- Python float `%` (sign follows the divisor). -/
def pyMod (a b : ℚ) : ℚ := a - b * ⌊a / b⌋

/-- Elementwise product of two sample vectors (numpy array `*`). -/
def zipMul (a b : List ℚ) : List ℚ := List.zipWith (· * ·) a b

/-- `Spectral_to_XYZ` (without the `illuminant_override` keyword, which
`convert_color` never supplies): reference illuminant looked up from the
spectral table (unknown illuminant raises `InvalidIlluminantError`),
standard observer selected on `'10'` versus anything else, then the three
weighted integrations.  numpy scalar division yields `nan` rather than
raising on a zero denominator, so division here is the total `ℚ`
division. -/
def Spectral_to_XYZ (E : Ext) (cobj : Spectralv) : Except CErr XYZv :=
  match E.refIllumTable cobj.illuminant with
  | none => .error .invalidIlluminant
  | some reference_illum =>
    let std_obs :=
      if cobj.observer = "10" then (E.stdObsX10, E.stdObsY10, E.stdObsZ10)
      else (E.stdObsX2, E.stdObsY2, E.stdObsZ2)
    let sample := cobj.bands
    let denom := (zipMul std_obs.2.1 reference_illum).sum
    let sample_by_ref_illum := zipMul sample reference_illum
    let xyz_x := (zipMul sample_by_ref_illum std_obs.1).sum / denom
    let xyz_y := (zipMul sample_by_ref_illum std_obs.2.1).sum / denom
    let xyz_z := (zipMul sample_by_ref_illum std_obs.2.2).sum / denom
    .ok ⟨xyz_x, xyz_y, xyz_z, cobj.illuminant, cobj.observer⟩

/-- `Lab_to_LCHab`: chroma/hue from `math.sqrt`/`math.pow`/`math.atan2`,
hue folded into degrees, illuminant and observer copied from the
input. -/
def Lab_to_LCHab (E : Ext) (cobj : Labv) : LCHabv :=
  let lch_l := cobj.lab_l
  let lch_c := E.esqrt (E.epow cobj.lab_a 2 + E.epow cobj.lab_b 2)
  let lch_h := E.eatan2 cobj.lab_b cobj.lab_a
  let lch_h :=
    if lch_h > 0 then (lch_h / E.epi) * 180
    else 360 - (|lch_h| / E.epi) * 180
  ⟨lch_l, lch_c, lch_h, cobj.illuminant, cobj.observer⟩

/-- `Lab_to_XYZ`: inverse f-function with the `CIE_E` threshold, scaled
by the reference white of the color's illuminant/observer. -/
def Lab_to_XYZ (E : Ext) (cobj : Labv) : Except CErr XYZv :=
  match getIlluminantXYZ cobj.observer cobj.illuminant with
  | .error e => .error e
  | .ok illum =>
    let xyz_y := (cobj.lab_l + 16) / 116
    let xyz_x := cobj.lab_a / 500 + xyz_y
    let xyz_z := xyz_y - cobj.lab_b / 200
    let xyz_y :=
      if E.epow xyz_y 3 > CIE_E then E.epow xyz_y 3
      else (xyz_y - 16 / 116) / (7787/1000)
    let xyz_x :=
      if E.epow xyz_x 3 > CIE_E then E.epow xyz_x 3
      else (xyz_x - 16 / 116) / (7787/1000)
    let xyz_z :=
      if E.epow xyz_z 3 > CIE_E then E.epow xyz_z 3
      else (xyz_z - 16 / 116) / (7787/1000)
    .ok ⟨illum.1 * xyz_x, illum.2.1 * xyz_y, illum.2.2 * xyz_z,
         cobj.illuminant, cobj.observer⟩

/-- `Luv_to_LCHuv`: like `Lab_to_LCHab` on the (u, v) plane. -/
def Luv_to_LCHuv (E : Ext) (cobj : Luvv) : LCHuvv :=
  let lch_l := cobj.luv_l
  let lch_c := E.esqrt (E.epow cobj.luv_u 2 + E.epow cobj.luv_v 2)
  let lch_h := E.eatan2 cobj.luv_v cobj.luv_u
  let lch_h :=
    if lch_h > 0 then (lch_h / E.epi) * 180
    else 360 - (|lch_h| / E.epi) * 180
  ⟨lch_l, lch_c, lch_h, cobj.illuminant, cobj.observer⟩

/-- `Luv_to_XYZ` (`color_conversions.py`, lines 305-340): the reference
white is looked up first; a non-positive `luv_l` is then short-circuited
to `XYZColor(0, 0, 0)` before any of the chromaticity fractions (and
their divisions) are evaluated.  Divisions on the live path use `divE`,
matching Python's `ZeroDivisionError` behaviour for floats. -/
def Luv_to_XYZ (E : Ext) (cobj : Luvv) : Except CErr XYZv :=
  match getIlluminantXYZ cobj.observer cobj.illuminant with
  | .error e => .error e
  | .ok illum =>
    if cobj.luv_l ≤ 0 then
      .ok ⟨0, 0, 0, cobj.illuminant, cobj.observer⟩
    else
      let cie_k_times_e := CIE_K * CIE_E
      match divE (4 * illum.1) (illum.1 + 15 * illum.2.1 + 3 * illum.2.2),
            divE (9 * illum.2.1) (illum.1 + 15 * illum.2.1 + 3 * illum.2.2) with
      | .error e, _ => .error e
      | _, .error e => .error e
      | .ok u_sub_0, .ok v_sub_0 =>
        match divE cobj.luv_u (13 * cobj.luv_l),
              divE cobj.luv_v (13 * cobj.luv_l) with
        | .error e, _ => .error e
        | _, .error e => .error e
        | .ok du, .ok dv =>
          let var_u := du + u_sub_0
          let var_v := dv + v_sub_0
          let xyz_y :=
            if cobj.luv_l > cie_k_times_e then E.epow ((cobj.luv_l + 16) / 116) 3
            else cobj.luv_l / CIE_K
          match divE (xyz_y * 9 * var_u) (4 * var_v),
                divE (xyz_y * (12 - 3 * var_u - 20 * var_v)) (4 * var_v) with
          | .error e, _ => .error e
          | _, .error e => .error e
          | .ok xyz_x, .ok xyz_z =>
            .ok ⟨xyz_x, xyz_y, xyz_z, cobj.illuminant, cobj.observer⟩

/-- `LCHab_to_Lab`: polar to rectangular via `math.cos`/`math.sin` of
`math.radians`. -/
def LCHab_to_Lab (E : Ext) (cobj : LCHabv) : Labv :=
  ⟨cobj.lch_l,
   E.ecos (E.eradians cobj.lch_h) * cobj.lch_c,
   E.esin (E.eradians cobj.lch_h) * cobj.lch_c,
   cobj.illuminant, cobj.observer⟩

/-- `LCHuv_to_Luv`: polar to rectangular via `math.cos`/`math.sin` of
`math.radians`. -/
def LCHuv_to_Luv (E : Ext) (cobj : LCHuvv) : Luvv :=
  ⟨cobj.lch_l,
   E.ecos (E.eradians cobj.lch_h) * cobj.lch_c,
   E.esin (E.eradians cobj.lch_h) * cobj.lch_c,
   cobj.illuminant, cobj.observer⟩

/-- `xyY_to_XYZ`: guarded against a zero `xyy_y` denominator. -/
def xyY_to_XYZ (cobj : XyYv) : XYZv :=
  if cobj.xyy_y = 0 then ⟨0, 0, 0, cobj.illuminant, cobj.observer⟩
  else
    let xyz_x := (cobj.xyy_x * cobj.xyy_Y) / cobj.xyy_y
    let xyz_y := cobj.xyy_Y
    let xyz_z := ((1 - cobj.xyy_x - cobj.xyy_y) * xyz_y) / cobj.xyy_y
    ⟨xyz_x, xyz_y, xyz_z, cobj.illuminant, cobj.observer⟩

/-- `XYZ_to_xyY`: guarded against a zero coordinate sum. -/
def XYZ_to_xyY (cobj : XYZv) : XyYv :=
  let xyz_sum := cobj.xyz_x + cobj.xyz_y + cobj.xyz_z
  if xyz_sum = 0 then ⟨0, 0, cobj.xyz_y, cobj.illuminant, cobj.observer⟩
  else
    ⟨cobj.xyz_x / xyz_sum, cobj.xyz_y / xyz_sum, cobj.xyz_y,
     cobj.illuminant, cobj.observer⟩

/-- `XYZ_to_Luv`: chromaticity fractions guarded against a zero
denominator, then the f-function against the illuminant's reference
white (whose table denominators are non-zero). -/
def XYZ_to_Luv (E : Ext) (cobj : XYZv) : Except CErr Luvv :=
  let temp_x := cobj.xyz_x
  let temp_y := cobj.xyz_y
  let temp_z := cobj.xyz_z
  let denom := temp_x + 15 * temp_y + 3 * temp_z
  let uv : ℚ × ℚ :=
    if denom = 0 then (0, 0) else ((4 * temp_x) / denom, (9 * temp_y) / denom)
  match getIlluminantXYZ cobj.observer cobj.illuminant with
  | .error e => .error e
  | .ok illum =>
    let temp_y := temp_y / illum.2.1
    let temp_y :=
      if temp_y > CIE_E then E.epow temp_y (1 / 3)
      else 7787/1000 * temp_y + 16 / 116
    let ref_U := (4 * illum.1) / (illum.1 + 15 * illum.2.1 + 3 * illum.2.2)
    let ref_V := (9 * illum.2.1) / (illum.1 + 15 * illum.2.1 + 3 * illum.2.2)
    let luv_l := 116 * temp_y - 16
    let luv_u := 13 * luv_l * (uv.1 - ref_U)
    let luv_v := 13 * luv_l * (uv.2 - ref_V)
    .ok ⟨luv_l, luv_u, luv_v, cobj.illuminant, cobj.observer⟩

/-- `XYZ_to_Lab`: f-function on each coordinate relative to the
reference white, then the L/a/b combination. -/
def XYZ_to_Lab (E : Ext) (cobj : XYZv) : Except CErr Labv :=
  match getIlluminantXYZ cobj.observer cobj.illuminant with
  | .error e => .error e
  | .ok illum =>
    let temp_x := cobj.xyz_x / illum.1
    let temp_y := cobj.xyz_y / illum.2.1
    let temp_z := cobj.xyz_z / illum.2.2
    let temp_x :=
      if temp_x > CIE_E then E.epow temp_x (1 / 3)
      else 7787/1000 * temp_x + 16 / 116
    let temp_y :=
      if temp_y > CIE_E then E.epow temp_y (1 / 3)
      else 7787/1000 * temp_y + 16 / 116
    let temp_z :=
      if temp_z > CIE_E then E.epow temp_z (1 / 3)
      else 7787/1000 * temp_z + 16 / 116
    .ok ⟨116 * temp_y - 16, 500 * (temp_x - temp_y), 200 * (temp_y - temp_z),
         cobj.illuminant, cobj.observer⟩

/-- `XYZ_to_RGB` (`color_conversions.py`, lines 479-529): chromatic
adaptation when the source illuminant differs from the target profile's
native illuminant, `apply_RGB_matrix` (which clamps negative components
to 0), then the sRGB piecewise transfer or the plain gamma transfer. -/
def XYZ_to_RGB (E : Ext) (cobj : XYZv) (target_rgb : RGBT) : RGBv :=
  let target_illum := nativeIlluminant target_rgb
  let temp :=
    if cobj.illuminant ≠ target_illum then
      E.adapt cobj.xyz_x cobj.xyz_y cobj.xyz_z cobj.illuminant target_illum
    else (cobj.xyz_x, cobj.xyz_y, cobj.xyz_z)
  let lin := apply_RGB_matrix temp.1 temp.2.1 temp.2.2 target_rgb .xyzToRgb
  let encode : ℚ → ℚ := fun v =>
    if target_rgb = .srgb then
      if v ≤ 31308/10000000 then v * 1292/100
      else 1055/1000 * E.epow v (1 / (12/5)) - 55/1000
    else E.epow v (1 / rgbGamma target_rgb)
  ⟨encode lin.1, encode lin.2.1, encode lin.2.2, target_rgb⟩

/-- `RGB_to_XYZ` (`color_conversions.py`, lines 532-574): linearise the
channels (sRGB piecewise or plain gamma), `apply_RGB_matrix`, build an
XYZ value at the profile's native illuminant (observer defaults to
`'2'`), then `XYZColor.apply_adaptation` to the requested target
illuminant. -/
def RGB_to_XYZ (E : Ext) (cobj : RGBv) (target_illuminant : Option String) :
    XYZv :=
  let linear : ℚ → ℚ := fun V =>
    if cobj.space = .srgb then
      if V ≤ 4045/100000 then V / (1292/100)
      else E.epow ((V + 55/1000) / (1055/1000)) (12/5)
    else E.epow V (rgbGamma cobj.space)
  let xyz := apply_RGB_matrix (linear cobj.rgb_r) (linear cobj.rgb_g)
    (linear cobj.rgb_b) cobj.space .rgbToXyz
  let target := target_illuminant.getD (nativeIlluminant cobj.space)
  let illuminant := nativeIlluminant cobj.space
  if illuminant ≠ target then
    let a := E.adapt xyz.1 xyz.2.1 xyz.2.2 illuminant target
    ⟨a.1, a.2.1, a.2.2, target.toLower, "2"⟩
  else ⟨xyz.1, xyz.2.1, xyz.2.2, illuminant, "2"⟩

/-- `__RGB_to_Hue`: the common hue computation of `RGB_to_HSL` and
`RGB_to_HSV`.  The final branch is the `var_max == var_B` arm of the
source's `elif` chain (when the maximum equals none of the three
channels the Python function would fall through, which cannot happen). -/
def RGB_to_Hue (var_R var_G var_B var_min var_max : ℚ) : ℚ :=
  if var_max = var_min then 0
  else if var_max = var_R then
    pyMod (60 * ((var_G - var_B) / (var_max - var_min)) + 360) 360
  else if var_max = var_G then
    60 * ((var_B - var_R) / (var_max - var_min)) + 120
  else
    60 * ((var_R - var_G) / (var_max - var_min)) + 240

/-- `RGB_to_HSV`: hue via `__RGB_to_Hue`, saturation guarded on a zero
maximum. -/
def RGB_to_HSV (cobj : RGBv) : HSVv :=
  let var_max := max cobj.rgb_r (max cobj.rgb_g cobj.rgb_b)
  let var_min := min cobj.rgb_r (min cobj.rgb_g cobj.rgb_b)
  let var_H := RGB_to_Hue cobj.rgb_r cobj.rgb_g cobj.rgb_b var_min var_max
  let var_S := if var_max = 0 then 0 else 1 - var_min / var_max
  ⟨var_H, var_S, var_max⟩

/-- `RGB_to_HSL`: hue via `__RGB_to_Hue`; for channels in [0, 1] the
saturation denominators are non-zero whenever `var_max ≠ var_min`. -/
def RGB_to_HSL (cobj : RGBv) : HSLv :=
  let var_max := max cobj.rgb_r (max cobj.rgb_g cobj.rgb_b)
  let var_min := min cobj.rgb_r (min cobj.rgb_g cobj.rgb_b)
  let var_H := RGB_to_Hue cobj.rgb_r cobj.rgb_g cobj.rgb_b var_min var_max
  let var_L := 1/2 * (var_max + var_min)
  let var_S :=
    if var_max = var_min then 0
    else if var_L ≤ 1/2 then (var_max - var_min) / (2 * var_L)
    else (var_max - var_min) / (2 - 2 * var_L)
  ⟨var_H, var_S, var_L⟩

/-- `__Calc_HSL_to_RGB_Components`. -/
def Calc_HSL_to_RGB_Components (var_q var_p C : ℚ) : ℚ :=
  let C := if C < 0 then C + 1 else C
  let C := if C > 1 then C - 1 else C
  if C < 1 / 6 then var_p + (var_q - var_p) * 6 * C
  else if C < 1/2 then var_q
  else if C < 2 / 3 then var_p + (var_q - var_p) * 6 * (2 / 3 - C)
  else var_p

/-- `HSV_to_RGB`: sector arithmetic (`int(math.floor(H))`, a
truncating division and Python `%`), producing an RGB value of the
caller's `target_rgb` profile; the unreachable sector index raises
`ValueError`. -/
def HSV_to_RGB (cobj : HSVv) (target_rgb : RGBT) : Except CErr RGBv :=
  let H := cobj.hsv_h
  let S := cobj.hsv_s
  let V := cobj.hsv_v
  let h_floored : ℤ := ⌊H⌋
  let h_sub_i : ℤ := (Int.tdiv h_floored 60).emod 6
  let var_f : ℚ := H / 60 - (Int.fdiv h_floored 60 : ℤ)
  let var_p := V * (1 - S)
  let var_q := V * (1 - var_f * S)
  let var_t := V * (1 - (1 - var_f) * S)
  let rgb : Except CErr (ℚ × ℚ × ℚ) :=
    if h_sub_i = 0 then .ok (V, var_t, var_p)
    else if h_sub_i = 1 then .ok (var_q, V, var_p)
    else if h_sub_i = 2 then .ok (var_p, V, var_t)
    else if h_sub_i = 3 then .ok (var_p, var_q, V)
    else if h_sub_i = 4 then .ok (var_t, var_p, V)
    else if h_sub_i = 5 then .ok (V, var_p, var_q)
    else .error .valueError
  rgb.map fun t => ⟨t.1, t.2.1, t.2.2, target_rgb⟩

/-- `HSL_to_RGB`: the standard q/p construction, producing an RGB value
of the caller's `target_rgb` profile. -/
def HSL_to_RGB (cobj : HSLv) (target_rgb : RGBT) : RGBv :=
  let H := cobj.hsl_h
  let S := cobj.hsl_s
  let L := cobj.hsl_l
  let var_q := if L < 1/2 then L * (1 + S) else L + S - L * S
  let var_p := 2 * L - var_q
  let h_sub_k := H / 360
  ⟨Calc_HSL_to_RGB_Components var_q var_p (h_sub_k + 1 / 3),
   Calc_HSL_to_RGB_Components var_q var_p h_sub_k,
   Calc_HSL_to_RGB_Components var_q var_p (h_sub_k - 1 / 3),
   target_rgb⟩

/-- `RGB_to_CMY`. -/
def RGB_to_CMY (cobj : RGBv) : CMYv :=
  ⟨1 - cobj.rgb_r, 1 - cobj.rgb_g, 1 - cobj.rgb_b⟩

/-- `CMY_to_RGB`, producing an RGB value of the caller's `target_rgb`
profile. -/
def CMY_to_RGB (cobj : CMYv) (target_rgb : RGBT) : RGBv :=
  ⟨1 - cobj.cmy_c, 1 - cobj.cmy_m, 1 - cobj.cmy_y, target_rgb⟩

/-- `CMY_to_CMYK`. -/
def CMY_to_CMYK (cobj : CMYv) : CMYKv :=
  let var_k : ℚ := 1
  let var_k := if cobj.cmy_c < var_k then cobj.cmy_c else var_k
  let var_k := if cobj.cmy_m < var_k then cobj.cmy_m else var_k
  let var_k := if cobj.cmy_y < var_k then cobj.cmy_y else var_k
  if var_k = 1 then ⟨0, 0, 0, var_k⟩
  else
    ⟨(cobj.cmy_c - var_k) / (1 - var_k),
     (cobj.cmy_m - var_k) / (1 - var_k),
     (cobj.cmy_y - var_k) / (1 - var_k), var_k⟩

/-- `CMYK_to_CMY`. -/
def CMYK_to_CMY (cobj : CMYKv) : CMYv :=
  ⟨cobj.cmyk_c * (1 - cobj.cmyk_k) + cobj.cmyk_k,
   cobj.cmyk_m * (1 - cobj.cmyk_k) + cobj.cmyk_k,
   cobj.cmyk_y * (1 - cobj.cmyk_k) + cobj.cmyk_k⟩

/-- `XYZ_to_IPT`: requires a D65-adapted, 2-degree input (otherwise
`ValueError`); the matrix/exponent arithmetic is the external
collaborator `Ext.xyzToIptM`. -/
def XYZ_to_IPT (E : Ext) (cobj : XYZv) : Except CErr IPTv :=
  if cobj.illuminant ≠ "d65" ∨ cobj.observer ≠ "2" then .error .valueError
  else
    let v := E.xyzToIptM cobj.xyz_x cobj.xyz_y cobj.xyz_z
    .ok ⟨v.1, v.2.1, v.2.2⟩

/-- `IPT_to_XYZ`: the inverse external arithmetic, with the output fixed
at observer `'2'`, illuminant `'d65'`. -/
def IPT_to_XYZ (E : Ext) (cobj : IPTv) : XYZv :=
  let v := E.iptToXyzM cobj.ipt_i cobj.ipt_p cobj.ipt_t
  ⟨v.1, v.2.1, v.2.2, "d65", "2"⟩

/-- The payload of a color instance: one variant per color-space
class. -/
inductive ColorV where
  | spectral (c : Spectralv)
  | xyz (c : XYZv)
  | xyy (c : XyYv)
  | lab (c : Labv)
  | lchab (c : LCHabv)
  | lchuv (c : LCHuvv)
  | luv (c : Luvv)
  | rgb (c : RGBv)
  | hsl (c : HSLv)
  | hsv (c : HSVv)
  | cmy (c : CMYv)
  | cmyk (c : CMYKv)
  | ipt (c : IPTv)
deriving DecidableEq, BEq, Repr

/-- A color instance as seen by `convert_color`: its payload plus the
private `_through_rgb_type` slot.  Modelled from the spec: the slot is
declared (class default `None`) on the modern `ColorBase`, absent from
`src/`; per the spec it remembers which RGB profile a converted color was
produced through, and freshly constructed colors carry no memory. -/
structure CColor where
  val : ColorV
  throughRGB : Option RGBT
deriving DecidableEq, BEq, Repr

/-- The concrete color-space type (`color.__class__`) of a color
instance. -/
def ctypeOf (c : CColor) : CType :=
  match c.val with
  | .spectral _ => .spectralT
  | .xyz _ => .xyzT
  | .xyy _ => .xyyT
  | .lab _ => .labT
  | .lchab _ => .lchabT
  | .lchuv _ => .lchuvT
  | .luv _ => .luvT
  | .rgb r => .rgbT r.space
  | .hsl _ => .hslT
  | .hsv _ => .hsvT
  | .cmy _ => .cmyT
  | .cmyk _ => .cmykT
  | .ipt _ => .iptT

/-- Dispatch of one registered conversion function on a color instance:
the `target_rgb` and `target_illuminant` call-time parameters are passed
to every function (each ignores the ones it does not use), and each
function returns a freshly constructed color carrying no through-RGB
memory.  A payload of the wrong color space fails like the Python
attribute access on a foreign object would. -/
def primApply (pid : PrimId) (E : Ext) (c : CColor) (target_rgb : RGBT)
    (target_illuminant : Option String) : Except CErr CColor :=
  match pid, c.val with
  | .spectralToXYZ, .spectral sc =>
    (Spectral_to_XYZ E sc).map fun r => ⟨.xyz r, none⟩
  | .labToLCHab, .lab lc => .ok ⟨.lchab (Lab_to_LCHab E lc), none⟩
  | .labToXYZ, .lab lc => (Lab_to_XYZ E lc).map fun r => ⟨.xyz r, none⟩
  | .luvToLCHuv, .luv lc => .ok ⟨.lchuv (Luv_to_LCHuv E lc), none⟩
  | .luvToXYZ, .luv lc => (Luv_to_XYZ E lc).map fun r => ⟨.xyz r, none⟩
  | .lchabToLab, .lchab lc => .ok ⟨.lab (LCHab_to_Lab E lc), none⟩
  | .lchuvToLuv, .lchuv lc => .ok ⟨.luv (LCHuv_to_Luv E lc), none⟩
  | .xyyToXYZ, .xyy yc => .ok ⟨.xyz (xyY_to_XYZ yc), none⟩
  | .xyzToXyy, .xyz xc => .ok ⟨.xyy (XYZ_to_xyY xc), none⟩
  | .xyzToLuv, .xyz xc => (XYZ_to_Luv E xc).map fun r => ⟨.luv r, none⟩
  | .xyzToLab, .xyz xc => (XYZ_to_Lab E xc).map fun r => ⟨.lab r, none⟩
  | .xyzToRGB, .xyz xc => .ok ⟨.rgb (XYZ_to_RGB E xc target_rgb), none⟩
  | .rgbToXYZ, .rgb rc => .ok ⟨.xyz (RGB_to_XYZ E rc target_illuminant), none⟩
  | .rgbToHSV, .rgb rc => .ok ⟨.hsv (RGB_to_HSV rc), none⟩
  | .rgbToHSL, .rgb rc => .ok ⟨.hsl (RGB_to_HSL rc), none⟩
  | .hsvToRGB, .hsv hc => (HSV_to_RGB hc target_rgb).map fun r => ⟨.rgb r, none⟩
  | .hslToRGB, .hsl hc => .ok ⟨.rgb (HSL_to_RGB hc target_rgb), none⟩
  | .rgbToCMY, .rgb rc => .ok ⟨.cmy (RGB_to_CMY rc), none⟩
  | .cmyToRGB, .cmy cc => .ok ⟨.rgb (CMY_to_RGB cc target_rgb), none⟩
  | .cmyToCMYK, .cmy cc => .ok ⟨.cmyk (CMY_to_CMYK cc), none⟩
  | .cmykToCMY, .cmyk cc => .ok ⟨.cmy (CMYK_to_CMY cc), none⟩
  | .xyzToIPT, .xyz xc => (XYZ_to_IPT E xc).map fun r => ⟨.ipt r, none⟩
  | .iptToXYZ, .ipt ic => .ok ⟨.xyz (IPT_to_XYZ E ic), none⟩
  | _, _ => .error .typeError

/-- The executor's fold over the resolved conversion path, counting the
number of conversion-function invocations. -/
def runPath (E : Ext) (prims : List PrimId) (c : CColor) (target_rgb : RGBT)
    (target_illuminant : Option String) : Except CErr (CColor × Nat) :=
  match prims with
  | [] => .ok (c, 0)
  | p :: rest =>
    match primApply p E c target_rgb target_illuminant with
    | .error e => .error e
    | .ok c' =>
      (runPath E rest c' target_rgb target_illuminant).map
        fun r => (r.1, r.2 + 1)

/-- The `through_rgb_type` value after `convert_color`'s RGB-target
override: if the requested target is an RGB-family type, that concrete
profile replaces the caller's `through_rgb_type` argument. -/
def effectiveThrough (target_cs : CType) (through_rgb_type : RGBT) : RGBT :=
  match target_cs with
  | .rgbT t => t
  | _ => through_rgb_type

/-- The working RGB profile selection of `convert_color` (lines
958-970): an explicit override (anything other than the default
`sRGBColor`) wins; otherwise the color's remembered `_through_rgb_type`,
when present; otherwise the default. -/
def selectTargetRGB (through_rgb_type : RGBT) (memory : Option RGBT) : RGBT :=
  if through_rgb_type ≠ .srgb then through_rgb_type
  else
    match memory with
    | some p => p
    | none => through_rgb_type

/-- Errors surfaced by `convert_color`. -/
inductive ConvertErr where
  | undefined (e : UndefinedConversion)
  | prim (e : CErr)
deriving DecidableEq, BEq, Repr

/-- `convert_color` (`color_conversions.py`, lines 912-998): resolve the
conversion path, override `through_rgb_type` with an RGB target, select
the working RGB profile (explicit override, else the color's remembered
profile, else the sRGB default), fold the color through the path passing
`target_rgb` and `target_illuminant` to every step, and finally tag the
result with `through_rgb_type` whenever that variable differs from the
default `sRGBColor`.  The returned number counts conversion-function
invocations. -/
def convert_color (E : Ext) (color : CColor) (target_cs : CType)
    (through_rgb_type : RGBT) (target_illuminant : Option String) :
    Except ConvertErr (CColor × Nat) :=
  match getConversionPath (ctypeOf color) target_cs with
  | .error e => .error (.undefined e)
  | .ok conversions =>
    let through := effectiveThrough target_cs through_rgb_type
    let target_rgb := selectTargetRGB through color.throughRGB
    match runPath E conversions color target_rgb target_illuminant with
    | .error e => .error (.prim e)
    | .ok (new_color, n) =>
      if through ≠ .srgb then .ok ({new_color with throughRGB := some through}, n)
      else .ok (new_color, n)

/-- A coordinate slot of a legacy color object as inspected by
`has_required_values`: present and numeric, present but not parseable as
a float, or missing (`getattr(self, val, None)` returned `None`). -/
inductive OldVal where
  | missing
  | nonNumeric (s : String)
  | num (q : ℚ)
deriving DecidableEq, BEq, Repr

/-- A legacy (`color_objects.py`) color object: its `VALUES` slots in
declaration order plus illuminant/observer metadata. -/
structure OldColor where
  values : List (String × OldVal)
  illuminant : String
  observer : String
deriving DecidableEq, BEq, Repr

/-- Errors of the legacy object layer (`color_exceptions.py`). -/
inductive OldErr where
  | missingValue (field : String)
  | invalidValue (field val : String)
  | invalidObserver
  | invalidConversion (cs : String)
deriving DecidableEq, BEq, Repr

/-- The `VALUES` loop of `ColorBase.has_required_values`
(`color_objects.py`, lines 114-130): the first `None` slot raises
`MissingValue`; the first non-float-parseable slot raises
`InvalidValue`. -/
def checkValuesLoop : List (String × OldVal) → Except OldErr Unit
  | [] => .ok ()
  | (name, .missing) :: _ => .error (.missingValue name)
  | (name, .nonNumeric s) :: _ => .error (.invalidValue name s)
  | (_, .num _) :: rest => checkValuesLoop rest

/-- `ColorBaseWithIlluminant.has_required_values` (`color_objects.py`,
lines 184-192): an observer outside `['2', '10']` raises
`InvalidObserver`, then the base `VALUES` loop runs. -/
def has_required_values (c : OldColor) : Except OldErr Unit :=
  if c.observer ≠ "2" ∧ c.observer ≠ "10" then .error .invalidObserver
  else checkValuesLoop c.values

/-- The conversion loop of `ColorBase.convert_to`: `None` entries (the
self-conversion placeholder) are skipped by `if func:`; the returned
count is the number of conversion functions actually invoked. -/
def applyOldFuncs : List (Option (OldColor → OldColor)) → OldColor →
    OldColor × Nat
  | [], c => (c, 0)
  | none :: rest, c => applyOldFuncs rest c
  | some f :: rest, c =>
    let r := applyOldFuncs rest (f c)
    (r.1, r.2 + 1)

/-- `ColorBase.convert_to` (`color_objects.py`, lines 40-77): look up the
conversion path in the object's `CONVERSIONS` table by the lowercased
target name (missing key raises `InvalidConversion`), validate the
object via `has_required_values`, and only then fold it through the
conversion functions.  The second component counts conversion-function
invocations. -/
def convert_to (table : String → Option (List (Option (OldColor → OldColor))))
    (c : OldColor) (cs_to : String) : Except OldErr OldColor × Nat :=
  match table cs_to.toLower with
  | none => (.error (.invalidConversion cs_to), 0)
  | some conversions =>
    match has_required_values c with
    | .error e => (.error e, 0)
    | .ok _ =>
      let r := applyOldFuncs conversions c
      (.ok r.1, r.2)

/-- Python `str.strip()` whitespace (the ASCII subset). -/
def isPySpace (c : Char) : Bool :=
  c = ' ' ∨ c = '\t' ∨ c = '\n' ∨ c = '\r' ∨ c = '\x0b' ∨ c = '\x0c'

/-- `str.strip()`: drop leading and trailing whitespace. -/
def pyStrip (cs : List Char) : List Char :=
  ((cs.dropWhile isPySpace).reverse.dropWhile isPySpace).reverse

/-- The value of a single hexadecimal digit, either case. -/
def hexVal (c : Char) : Option ℕ :=
  if '0' ≤ c ∧ c ≤ '9' then some (c.toNat - 48)
  else if 'a' ≤ c ∧ c ≤ 'f' then some (c.toNat - 87)
  else if 'A' ≤ c ∧ c ≤ 'F' then some (c.toNat - 55)
  else none

/-- Digit tail of a Python base-16 integer literal: hexadecimal digits
with single underscores allowed between digits. -/
def parseHexRest (acc : ℕ) : List Char → Option ℕ
  | [] => some acc
  | c :: rest =>
    if c = '_' then
      match rest with
      | [] => none
      | c2 :: rest2 => (hexVal c2).bind fun d => parseHexRest (16 * acc + d) rest2
    else (hexVal c).bind fun d => parseHexRest (16 * acc + d) rest

/-- Nonempty digit group of a Python base-16 integer literal; after a
`0x` prefix one leading underscore is permitted. -/
def parseHexDigits (allowLeadUnderscore : Bool) (l : List Char) : Option ℕ :=
  match l with
  | [] => none
  | c :: rest =>
    if c = '_' then
      if allowLeadUnderscore then
        match rest with
        | [] => none
        | c2 :: rest2 => (hexVal c2).bind fun d => parseHexRest d rest2
      else none
    else (hexVal c).bind fun d => parseHexRest d rest

/-- Body of a Python base-16 integer literal: an optional `0x`/`0X`
prefix then digits. -/
def parseHexBody (u : List Char) : Option ℕ :=
  match u with
  | c0 :: c :: rest =>
    if c0 = '0' ∧ (c = 'x' ∨ c = 'X') then parseHexDigits true rest
    else parseHexDigits false u
  | _ => parseHexDigits false u

/-- Python `int(s, 16)`: strip surrounding whitespace, an optional sign,
then a base-16 literal body; anything else raises `ValueError`
(`none` here). -/
def pyIntHex16 (cs : List Char) : Option ℤ :=
  match pyStrip cs with
  | [] => none
  | c :: u =>
    if c = '+' then (parseHexBody u).map fun n => (n : ℤ)
    else if c = '-' then (parseHexBody u).map fun n => -(n : ℤ)
    else (parseHexBody (c :: u)).map fun n => (n : ℤ)

/-- Failure kinds of `RGBColor.new_from_rgb_hex`: the explicit
`ValueError` raise and the uncaught `ValueError` from `int(n, 16)` are
the malformed-format error kind (`FormatError` in the spec's taxonomy);
indexing `colorstring[0]` on an empty string raises `IndexError`. -/
inductive HexErr where
  | formatError
  | indexError
deriving DecidableEq, BEq, Repr

/-- `RGBColor.new_from_rgb_hex` (`color_objects.py`, lines 706-720):
strip the input, drop one leading `'#'`, require exactly six remaining
characters, and parse the three two-character chunks with
`int(n, 16) / 255.0`. -/
def new_from_rgb_hex (hex_str : String) : Except HexErr (ℚ × ℚ × ℚ) :=
  let colorstring := pyStrip hex_str.toList
  match colorstring with
  | [] => .error .indexError
  | c0 :: rest =>
    let body := if c0 = '#' then rest else colorstring
    if body.length ≠ 6 then .error .formatError
    else
      match pyIntHex16 (body.take 2), pyIntHex16 ((body.drop 2).take 2),
            pyIntHex16 (body.drop 4) with
      | some r, some g, some b =>
        .ok ((r : ℚ) / 255, (g : ℚ) / 255, (b : ℚ) / 255)
      | _, _, _ => .error .formatError

/-- `RGBColor.get_rgb_upscaled`: round each [0,1] channel to the 0-255
integer view via `int(math.floor(1/2 + x * 255))`. -/
def get_rgb_upscaled (r g b : ℚ) : ℤ × ℤ × ℤ :=
  (⌊(1/2 : ℚ) + r * 255⌋, ⌊(1/2 : ℚ) + g * 255⌋, ⌊(1/2 : ℚ) + b * 255⌋)

/-- Python `'%02x' % n`: lowercase hexadecimal, zero padded to width 2
(the sign of a negative value counts toward the width). -/
def toPyHex2 (n : ℤ) : String :=
  if n < 0 then
    let d := Nat.toDigits 16 n.natAbs
    String.mk ('-' :: (List.replicate (1 - d.length) '0' ++ d))
  else
    let d := Nat.toDigits 16 n.toNat
    String.mk (List.replicate (2 - d.length) '0' ++ d)

/-- `RGBColor.get_rgb_hex` (`color_objects.py`, lines 698-704):
`'#%02x%02x%02x'` over the upscaled channels. -/
def get_rgb_hex (r g b : ℚ) : String :=
  let u := get_rgb_upscaled r g b
  "#" ++ toPyHex2 u.1 ++ toPyHex2 u.2.1 ++ toPyHex2 u.2.2

/-- Spec-side definition, following the claim's words: the strings
consisting of an optional leading `'#'` followed by exactly 6
hexadecimal digits, case-insensitively. -/
def specHexGrammar (s : String) : Bool :=
  match s.toList with
  | [] => false
  | c :: rest =>
    let body := if c = '#' then rest else c :: rest
    body.length = 6 ∧ body.all fun ch => (hexVal ch).isSome

/-- Whether a character is a lowercase hexadecimal digit. -/
def isLowerHexDigit (c : Char) : Bool :=
  ('0' ≤ c ∧ c ≤ '9') ∨ ('a' ≤ c ∧ c ≤ 'f')

/-- Spec-side definition, following the claim's words: a lowercase
string of the form `'#RRGGBB'`. -/
def specLowerHexForm (s : String) : Bool :=
  match s.toList with
  | '#' :: rest => rest.length = 6 ∧ rest.all isLowerHexDigit
  | _ => false

/-- One registered edge step in the module's conversion graph. -/
abbrev edgeStep (a b : Space) : Prop := hasEdge conversionGraph a b = true

/-- Spec-side definition of a directed path existing in the registered
conversion graph: the reflexive-transitive closure of the edge
relation. -/
def ReachableSpace (a b : Space) : Prop := Relation.ReflTransGen edgeStep a b

/-- Whether a legacy coordinate slot is missing or non-numeric. -/
def isBadOld : OldVal → Bool
  | .num _ => false
  | _ => true

/-- Whether a legacy error is one of the two coordinate-validation kinds
(`MissingValue` / `InvalidValue`). -/
def isValidationOldErr : OldErr → Bool
  | .missingValue _ => true
  | .invalidValue _ _ => true
  | _ => false

/-- C3: Identity conversion — resolving a path from any concrete color
type to itself yields the empty list of conversion functions, and
`convert_color` to the color's own type returns a color whose value
equals the input's with zero conversion-function invocations, for every
choice of call-time parameters. -/
theorem identity_conversion (E : Ext) (c : CColor) (thr : RGBT)
    (til : Option String) :
    getConversionPath (ctypeOf c) (ctypeOf c) = .ok [] ∧
    (convert_color E c (ctypeOf c) thr til).map (fun p => (p.1.val, p.2)) =
      .ok (c.val, 0) := by
  obtain ⟨v, tg⟩ := c
  have hpath : getConversionPath (ctypeOf ⟨v, tg⟩) (ctypeOf ⟨v, tg⟩) = .ok [] := by
    cases v
    case rgb r =>
      obtain ⟨rr, rg, rb, sp⟩ := r
      cases sp <;> (simp only [ctypeOf]; decide)
    all_goals (simp only [ctypeOf]; decide)
  refine ⟨hpath, ?_⟩
  simp only [convert_color, hpath, runPath]
  split <;> rfl

/-- C4: RGB-node normalisation — all concrete RGB profile subtypes are
replaced by the single canonical `BaseRGBColor` node before path search,
so every concrete RGB profile shares exactly the same graph connectivity
in both directions; and each conversion function producing an RGB value
constructs it in the caller's concrete profile. -/
theorem rgb_normalisation :
    (∀ (p q : RGBT) (t : CType),
      normaliseType (.rgbT p) = .BaseRGB ∧
      getConversionPath (.rgbT p) t = getConversionPath (.rgbT q) t ∧
      getConversionPath t (.rgbT p) = getConversionPath t (.rgbT q)) ∧
    (∀ (E : Ext) (xc : XYZv) (hc : HSVv) (lc : HSLv) (cc : CMYv) (p : RGBT),
      (XYZ_to_RGB E xc p).space = p ∧
      (HSL_to_RGB lc p).space = p ∧
      (CMY_to_RGB cc p).space = p ∧
      ((HSV_to_RGB hc p).toOption.all fun r => decide (r.space = p)) = true) := by
  refine ⟨fun p q t => ⟨rfl, rfl, rfl⟩, fun E xc hc lc cc p => ⟨rfl, rfl, rfl, ?_⟩⟩
  have h : ∀ o : Except CErr (ℚ × ℚ × ℚ),
      ((o.map fun t => (⟨t.1, t.2.1, t.2.2, p⟩ : RGBv)).toOption.all
        fun r => decide (r.space = p)) = true := by
    intro o
    cases o <;> simp [Except.map, Except.toOption, Option.all]
  simp only [HSV_to_RGB]
  exact h _

/-- C7: Zero-luminance safety — for a Luv color with `luv_l ≤ 0` whose
illuminant/observer are recognised, `Luv_to_XYZ` performs no division
(raising nothing) and short-circuits to `XYZColor(0, 0, 0)` with the
input's metadata; the chromaticity-fraction divisions (which `divE`
would report as `zeroDivision`) are never reached. -/
theorem luv_zero_luminance (E : Ext) (c : Luvv) (i : ℚ × ℚ × ℚ)
    (hl : c.luv_l ≤ 0)
    (hi : getIlluminantXYZ c.observer c.illuminant = .ok i) :
    Luv_to_XYZ E c = .ok ⟨0, 0, 0, c.illuminant, c.observer⟩ := by
  simp only [Luv_to_XYZ, hi]
  simp [hl]

/-- Closed witness for `luv_zero_luminance`. -/
theorem luv_zero_luminance_witness :
    Luv_to_XYZ extZero ⟨0, 7, 7, "d50", "2"⟩ = .ok ⟨0, 0, 0, "d50", "2"⟩ :=
  luv_zero_luminance extZero ⟨0, 7, 7, "d50", "2"⟩ (9642/100, 100, 8252/100)
    (by norm_num) (by simp [getIlluminantXYZ, illuminantsTable])

/-- C9: Last registration wins — `add_type_conversion` on a pair that
already has an edge overwrites the stored conversion function (for any
graph, pair and pair of functions), and after re-registering the direct
`XYZColor → LabColor` edge of the module graph, path resolution over
that edge returns only the second function. -/
theorem last_registration_wins :
    (∀ (P : Type) (g : Graph P) (s t : Space) (f1 f2 : P),
      edgeData (addEdge (addEdge g s t f1) s t f2) s t = some f2) ∧
    (∀ f2 : PrimId,
      getConversionPathG (addEdge conversionGraph .XYZ .Lab f2) .xyzT .labT =
        .ok [f2]) := by
  constructor
  · intro P g s t f1 f2
    induction g with
    | nil => simp [addEdge, edgeData]
    | cons e rest ih =>
      obtain ⟨a, b, p⟩ := e
      by_cases hab : a = s ∧ b = t
      · simp [addEdge, hab, edgeData]
      · simp [addEdge, hab, edgeData, ih]
  · intro f2
    rfl

/-- C10: Illuminant/observer preservation — each of the CIE-space
conversion functions `XYZ_to_Lab`, `Lab_to_XYZ`, `XYZ_to_Luv`,
`Luv_to_XYZ`, `XYZ_to_xyY`, `xyY_to_XYZ`, `Lab_to_LCHab`,
`LCHab_to_Lab`, `Luv_to_LCHuv`, `LCHuv_to_Luv` and `Spectral_to_XYZ`
constructs its output with exactly the illuminant and observer strings
of its input, for every input and every external-collaborator
instantiation. -/
theorem illuminant_observer_preserved (E : Ext) (xc : XYZv) (lc : Labv)
    (uc : Luvv) (hc : LCHabv) (uu : LCHuvv) (yc : XyYv) (sc : Spectralv) :
    (XYZ_to_xyY xc).illuminant = xc.illuminant ∧
    (XYZ_to_xyY xc).observer = xc.observer ∧
    (xyY_to_XYZ yc).illuminant = yc.illuminant ∧
    (xyY_to_XYZ yc).observer = yc.observer ∧
    (Lab_to_LCHab E lc).illuminant = lc.illuminant ∧
    (Lab_to_LCHab E lc).observer = lc.observer ∧
    (LCHab_to_Lab E hc).illuminant = hc.illuminant ∧
    (LCHab_to_Lab E hc).observer = hc.observer ∧
    (Luv_to_LCHuv E uc).illuminant = uc.illuminant ∧
    (Luv_to_LCHuv E uc).observer = uc.observer ∧
    (LCHuv_to_Luv E uu).illuminant = uu.illuminant ∧
    (LCHuv_to_Luv E uu).observer = uu.observer ∧
    ((XYZ_to_Lab E xc).toOption.all fun r =>
      decide (r.illuminant = xc.illuminant ∧ r.observer = xc.observer)) = true ∧
    ((XYZ_to_Luv E xc).toOption.all fun r =>
      decide (r.illuminant = xc.illuminant ∧ r.observer = xc.observer)) = true ∧
    ((Lab_to_XYZ E lc).toOption.all fun r =>
      decide (r.illuminant = lc.illuminant ∧ r.observer = lc.observer)) = true ∧
    ((Luv_to_XYZ E uc).toOption.all fun r =>
      decide (r.illuminant = uc.illuminant ∧ r.observer = uc.observer)) = true ∧
    ((Spectral_to_XYZ E sc).toOption.all fun r =>
      decide (r.illuminant = sc.illuminant ∧ r.observer = sc.observer)) = true := by
  have metaAll : ∀ (o : Except CErr XYZv) (il ob : String),
      (∀ r, o = .ok r → r.illuminant = il ∧ r.observer = ob) →
      (o.toOption.all fun r => decide (r.illuminant = il ∧ r.observer = ob)) =
        true := by
    intro o il ob h
    cases o with
    | error e => rfl
    | ok r =>
      obtain ⟨h1, h2⟩ := h r rfl
      simp [Except.toOption, Option.all, h1, h2]
  have metaAllL : ∀ (o : Except CErr Labv) (il ob : String),
      (∀ r, o = .ok r → r.illuminant = il ∧ r.observer = ob) →
      (o.toOption.all fun r => decide (r.illuminant = il ∧ r.observer = ob)) =
        true := by
    intro o il ob h
    cases o with
    | error e => rfl
    | ok r =>
      obtain ⟨h1, h2⟩ := h r rfl
      simp [Except.toOption, Option.all, h1, h2]
  have metaAllU : ∀ (o : Except CErr Luvv) (il ob : String),
      (∀ r, o = .ok r → r.illuminant = il ∧ r.observer = ob) →
      (o.toOption.all fun r => decide (r.illuminant = il ∧ r.observer = ob)) =
        true := by
    intro o il ob h
    cases o with
    | error e => rfl
    | ok r =>
      obtain ⟨h1, h2⟩ := h r rfl
      simp [Except.toOption, Option.all, h1, h2]
  refine ⟨?_, ?_, ?_, ?_, rfl, rfl, rfl, rfl, rfl, rfl, rfl, rfl, ?_, ?_, ?_, ?_, ?_⟩
  · simp only [XYZ_to_xyY]; split <;> rfl
  · simp only [XYZ_to_xyY]; split <;> rfl
  · simp only [xyY_to_XYZ]; split <;> rfl
  · simp only [xyY_to_XYZ]; split <;> rfl
  · refine metaAllL _ _ _ fun r hr => ?_
    simp only [XYZ_to_Lab] at hr
    repeat' split at hr
    all_goals first
      | exact Except.noConfusion hr
      | (injection hr with h; subst h; exact ⟨rfl, rfl⟩)
  · refine metaAllU _ _ _ fun r hr => ?_
    simp only [XYZ_to_Luv] at hr
    repeat' split at hr
    all_goals first
      | exact Except.noConfusion hr
      | (injection hr with h; subst h; exact ⟨rfl, rfl⟩)
  · refine metaAll _ _ _ fun r hr => ?_
    simp only [Lab_to_XYZ] at hr
    repeat' split at hr
    all_goals first
      | exact Except.noConfusion hr
      | (injection hr with h; subst h; exact ⟨rfl, rfl⟩)
  · refine metaAll _ _ _ fun r hr => ?_
    simp only [Luv_to_XYZ] at hr
    repeat' split at hr
    all_goals first
      | exact Except.noConfusion hr
      | (injection hr with h; subst h; exact ⟨rfl, rfl⟩)
  · refine metaAll _ _ _ fun r hr => ?_
    simp only [Spectral_to_XYZ] at hr
    repeat' split at hr
    all_goals first
      | exact Except.noConfusion hr
      | (injection hr with h; subst h; exact ⟨rfl, rfl⟩)

/-- C5: Validation precedes conversion — for every legacy conversion
request whose target is in the object's `CONVERSIONS` table, on a color
with a valid observer but a missing or non-numeric coordinate,
`convert_to` returns the corresponding `MissingValue`/`InvalidValue`
validation error with zero conversion-function invocations (so no
conversion arithmetic executes). -/
theorem validation_precedes_conversion
    (table : String → Option (List (Option (OldColor → OldColor))))
    (c : OldColor) (cs_to : String)
    (conversions : List (Option (OldColor → OldColor)))
    (hlook : table cs_to.toLower = some conversions)
    (hobs : c.observer = "2" ∨ c.observer = "10")
    (hbad : ∃ p ∈ c.values, isBadOld p.2 = true) :
    (convert_to table c cs_to).2 = 0 ∧
    ∃ e, (convert_to table c cs_to).1 = .error e ∧ isValidationOldErr e = true := by
  have hloop : ∀ vs : List (String × OldVal), (∃ p ∈ vs, isBadOld p.2 = true) →
      ∃ e, checkValuesLoop vs = .error e ∧ isValidationOldErr e = true := by
    intro vs hv
    induction vs with
    | nil => simp at hv
    | cons hd tl ih =>
      obtain ⟨name, v⟩ := hd
      cases v with
      | missing => exact ⟨.missingValue name, rfl, rfl⟩
      | nonNumeric s => exact ⟨.invalidValue name s, rfl, rfl⟩
      | num q =>
        obtain ⟨p, hp, hbadp⟩ := hv
        rcases List.mem_cons.mp hp with h | h
        · subst h; simp [isBadOld] at hbadp
        · exact ih ⟨p, h, hbadp⟩
  obtain ⟨e, he, hv⟩ := hloop c.values hbad
  have hreq : has_required_values c = .error e := by
    unfold has_required_values
    rcases hobs with h | h <;> simp [h, he]
  refine ⟨?_, e, ?_, hv⟩ <;> simp [convert_to, hlook, hreq]

/-- Closed witness for `validation_precedes_conversion`: a Lab-shaped
legacy color with its `lab_b` slot missing, converted through a table
containing the requested key. -/
theorem validation_precedes_conversion_witness :
    (convert_to (fun _ => some [some id])
      ⟨[("lab_l", .num 50), ("lab_a", .num 10), ("lab_b", .missing)], "d50", "2"⟩
      "XYZ").2 = 0 ∧
    ∃ e, (convert_to (fun _ => some [some id])
      ⟨[("lab_l", .num 50), ("lab_a", .num 10), ("lab_b", .missing)], "d50", "2"⟩
      "XYZ").1 = .error e ∧ isValidationOldErr e = true :=
  validation_precedes_conversion _ _ _ [some id] (by rfl) (.inl rfl)
    ⟨("lab_b", .missing), by simp, rfl⟩

/-- C6 (amended): `apply_RGB_matrix` clamps every negative component of
the working-matrix product up to 0 during conversion arithmetic (its
outputs are always non-negative, with no upper clamp), so an sRGB
XYZ→RGB conversion whose exact linear red channel lies at or below the
linear-transfer threshold returns `12.92 · max(linear, 0)` — a negative
exact linear channel yields 0, not the out-of-gamut value. -/
theorem rgb_clamping_amended :
    (∀ (t : RGBT) (ct : ConvType) (v1 v2 v3 : ℚ),
      0 ≤ (apply_RGB_matrix v1 v2 v3 t ct).1 ∧
      0 ≤ (apply_RGB_matrix v1 v2 v3 t ct).2.1 ∧
      0 ≤ (apply_RGB_matrix v1 v2 v3 t ct).2.2) ∧
    (∀ (E : Ext) (c : XYZv),
      c.illuminant = "d65" →
      (matVec (conversionMatrices .srgb .xyzToRgb)
        (c.xyz_x, c.xyz_y, c.xyz_z)).1 ≤ 31308 / 10000000 →
      (XYZ_to_RGB E c .srgb).rgb_r =
        max (matVec (conversionMatrices .srgb .xyzToRgb)
          (c.xyz_x, c.xyz_y, c.xyz_z)).1 0 * (1292 / 100)) := by
  constructor
  · intro t ct v1 v2 v3
    simp only [apply_RGB_matrix]
    exact ⟨le_max_right _ _, le_max_right _ _, le_max_right _ _⟩
  · intro E c hil hle
    have hth : max (matVec (conversionMatrices .srgb .xyzToRgb)
        (c.xyz_x, c.xyz_y, c.xyz_z)).1 0 ≤ 31308 / 10000000 :=
      max_le hle (by norm_num)
    simp [XYZ_to_RGB, nativeIlluminant, apply_RGB_matrix, hil, hth]
    ring

/-- Counterexample to C6 as stated: the XYZ value (0, 0.001, 0) at
D65/2° has a strictly negative exact linear red channel under the sRGB
matrix, yet `XYZ_to_RGB` returns red = 0 — the negative value is
silently clamped inside `apply_RGB_matrix`, not preserved as an
out-of-gamut value. -/
theorem negative_channel_clamped_counterexample :
    (matVec (conversionMatrices .srgb .xyzToRgb) ((0 : ℚ), 1 / 1000, 0)).1 < 0 ∧
    (XYZ_to_RGB extZero ⟨0, 1 / 1000, 0, "d65", "2"⟩ .srgb).rgb_r = 0 := by
  have h1 : (matVec (conversionMatrices .srgb .xyzToRgb)
      ((0 : ℚ), 1 / 1000, 0)).1 = -153726 / 100000000 := by
    norm_num [matVec, conversionMatrices]
  have h2 : max (-153726 / 100000000 : ℚ) 0 = 0 := max_eq_right (by norm_num)
  refine ⟨by rw [h1]; norm_num, ?_⟩
  simp only [XYZ_to_RGB, nativeIlluminant, apply_RGB_matrix]
  norm_num [matVec, conversionMatrices]

/-- Closed witness for `rgb_clamping_amended`, applying it at the same
concrete XYZ input. -/
theorem rgb_clamping_witness :
    (XYZ_to_RGB extZero ⟨0, 1 / 1000, 0, "d65", "2"⟩ .srgb).rgb_r =
      max (matVec (conversionMatrices .srgb .xyzToRgb)
        ((0 : ℚ), 1 / 1000, 0)).1 0 * (1292 / 100) :=
  rgb_clamping_amended.2 extZero ⟨0, 1 / 1000, 0, "d65", "2"⟩ rfl
    (by norm_num [matVec, conversionMatrices])

theorem stepReach (a b : Space) (h : hasEdge conversionGraph a b = true) :
    ReachableSpace a b :=
  Relation.ReflTransGen.single h

theorem stepHead (a b c : Space) (h : hasEdge conversionGraph a b = true)
    (h2 : ReachableSpace b c) : ReachableSpace a c :=
  Relation.ReflTransGen.head h h2

theorem reach_to_XYZ (s : Space) : ReachableSpace s .XYZ := by
  cases s
  case Spectral => exact stepReach _ _ (by decide)
  case XYZ => exact .refl
  case XyY => exact stepReach _ _ (by decide)
  case Lab => exact stepReach _ _ (by decide)
  case LCHab => exact stepHead _ .Lab _ (by decide) (stepReach _ _ (by decide))
  case LCHuv => exact stepHead _ .Luv _ (by decide) (stepReach _ _ (by decide))
  case Luv => exact stepReach _ _ (by decide)
  case BaseRGB => exact stepReach _ _ (by decide)
  case HSV => exact stepHead _ .BaseRGB _ (by decide) (stepReach _ _ (by decide))
  case HSL => exact stepHead _ .BaseRGB _ (by decide) (stepReach _ _ (by decide))
  case CMY => exact stepHead _ .BaseRGB _ (by decide) (stepReach _ _ (by decide))
  case CMYK =>
    exact stepHead _ .CMY _ (by decide)
      (stepHead _ .BaseRGB _ (by decide) (stepReach _ _ (by decide)))
  case IPT => exact stepReach _ _ (by decide)

theorem XYZ_reaches (t : Space) (ht : t ≠ .Spectral) : ReachableSpace .XYZ t := by
  cases t
  case Spectral => exact absurd rfl ht
  case XYZ => exact .refl
  case XyY => exact stepReach _ _ (by decide)
  case Lab => exact stepReach _ _ (by decide)
  case LCHab => exact stepHead _ .Lab _ (by decide) (stepReach _ _ (by decide))
  case LCHuv => exact stepHead _ .Luv _ (by decide) (stepReach _ _ (by decide))
  case Luv => exact stepReach _ _ (by decide)
  case BaseRGB => exact stepReach _ _ (by decide)
  case HSV => exact stepHead _ .BaseRGB _ (by decide) (stepReach _ _ (by decide))
  case HSL => exact stepHead _ .BaseRGB _ (by decide) (stepReach _ _ (by decide))
  case CMY => exact stepHead _ .BaseRGB _ (by decide) (stepReach _ _ (by decide))
  case CMYK =>
    exact stepHead _ .BaseRGB _ (by decide)
      (stepHead _ .CMY _ (by decide) (stepReach _ _ (by decide)))
  case IPT => exact stepReach _ _ (by decide)

theorem no_edge_into_spectral (b : Space) : ¬ edgeStep b .Spectral := by
  cases b <;> decide

theorem reach_spectral_eq (s t : Space) (h : ReachableSpace s t)
    (ht : t = .Spectral) : s = .Spectral := by
  induction h with
  | refl => exact ht
  | tail hst hedge ih =>
    subst ht
    exact absurd hedge (no_edge_into_spectral _)

theorem reach_iff_cond (s t : Space) :
    ReachableSpace s t ↔ (t ≠ .Spectral ∨ s = .Spectral) := by
  constructor
  · intro h
    by_cases hts : t = .Spectral
    · exact .inr (reach_spectral_eq s t h hts)
    · exact .inl hts
  · rintro (ht | hs)
    · exact (reach_to_XYZ s).trans (XYZ_reaches t ht)
    · subst hs
      by_cases hts : t = .Spectral
      · subst hts; exact .refl
      · exact (reach_to_XYZ _).trans (XYZ_reaches t hts)

theorem findShortestPath_isSome_iff (s t : Space) :
    (findShortestPath conversionGraph s t).isSome =
      (decide (t ≠ .Spectral) || decide (s = .Spectral)) := by
  cases s <;> cases t <;> decide

/-- C2 (amended): for every pair of concrete types whose normalised
endpoints admit no directed path in the registered conversion graph,
path resolution fails with `UndefinedConversionError` carrying the names
of the two *normalised* endpoint types (a concrete RGB profile subtype
is reported as `BaseRGBColor`); in particular every request into
Spectral from a type not normalising to Spectral raises this error. -/
theorem undefined_conversion_amended :
    (∀ s t : CType,
      getConversionPath s t =
          .error ⟨spaceName (normaliseType s), spaceName (normaliseType t)⟩ ↔
        ¬ ReachableSpace (normaliseType s) (normaliseType t)) ∧
    (∀ s : CType, normaliseType s ≠ .Spectral →
      getConversionPath s .spectralT =
        .error ⟨spaceName (normaliseType s), "SpectralColor"⟩) := by
  have main : ∀ s t : CType,
      getConversionPath s t =
          .error ⟨spaceName (normaliseType s), spaceName (normaliseType t)⟩ ↔
        ¬ ReachableSpace (normaliseType s) (normaliseType t) := by
    intro s t
    have hb := findShortestPath_isSome_iff (normaliseType s) (normaliseType t)
    have hc := reach_iff_cond (normaliseType s) (normaliseType t)
    constructor
    · intro he hr
      have hcond : (decide (normaliseType t ≠ .Spectral) ||
          decide (normaliseType s = .Spectral)) = true := by
        rcases hc.mp hr with h | h <;> simp [h]
      rw [← hb] at hcond
      obtain ⟨l, hl⟩ := Option.isSome_iff_exists.mp hcond
      simp only [getConversionPath, getConversionPathG, hl] at he
      exact Except.noConfusion he
    · intro hnr
      have h1 : ¬ (normaliseType t ≠ .Spectral ∨ normaliseType s = .Spectral) :=
        fun h => hnr (hc.mpr h)
      push_neg at h1
      have hnone : findShortestPath conversionGraph (normaliseType s)
          (normaliseType t) = none := by
        rw [← Option.not_isSome_iff_eq_none, hb]
        simp [h1.1, h1.2]
      simp only [getConversionPath, getConversionPathG, hnone]
  refine ⟨main, fun s hs => ?_⟩
  exact (main s .spectralT).mpr fun h => hs (reach_spectral_eq _ _ h rfl)

/-- Closed witness for `undefined_conversion_amended`. -/
theorem undefined_conversion_witness :
    getConversionPath .labT .spectralT = .error ⟨"LabColor", "SpectralColor"⟩ :=
  undefined_conversion_amended.2 .labT (by decide)

/-- Counterexample to C2 as stated: requesting `AdobeRGBColor →
SpectralColor` raises `UndefinedConversionError` naming `BaseRGBColor`,
not the requested endpoint type `AdobeRGBColor`; and a request from
Spectral into Spectral itself resolves to the empty path instead of
raising. -/
theorem undefined_conversion_naming_counterexample :
    getConversionPath (.rgbT .adobe) .spectralT =
      .error ⟨"BaseRGBColor", "SpectralColor"⟩ ∧
    ctypeName (.rgbT .adobe) = "AdobeRGBColor" ∧
    ("BaseRGBColor" : String) ≠ "AdobeRGBColor" ∧
    getConversionPath .spectralT .spectralT = .ok [] :=
  ⟨by decide, rfl, by decide, by decide⟩

theorem dropWhile_eq_self_of_all (l : List Char)
    (h : ∀ c ∈ l, isPySpace c = false) : l.dropWhile isPySpace = l := by
  cases l with
  | nil => rfl
  | cons a as => simp [List.dropWhile_cons, h a (by simp)]

theorem pyStrip_eq_self (l : List Char) (h : ∀ c ∈ l, isPySpace c = false) :
    pyStrip l = l := by
  unfold pyStrip
  rw [dropWhile_eq_self_of_all l h]
  rw [dropWhile_eq_self_of_all l.reverse (fun c hc => h c (List.mem_reverse.mp hc))]
  exact List.reverse_reverse l

theorem hexVal_ne (c : Char) (d : ℕ) (h : hexVal c = some d) (x : Char)
    (hx : hexVal x = none) : c ≠ x := by
  intro hc
  subst hc
  rw [hx] at h
  exact Option.noConfusion h

theorem hexVal_not_space (c : Char) (d : ℕ) (h : hexVal c = some d) :
    isPySpace c = false := by
  cases hb : isPySpace c
  · rfl
  · exfalso
    simp only [isPySpace, decide_eq_true_eq] at hb
    rcases hb with rfl | rfl | rfl | rfl | rfl | rfl
    · exact Option.noConfusion ((show hexVal ' ' = none by decide) ▸ h)
    · exact Option.noConfusion ((show hexVal '\t' = none by decide) ▸ h)
    · exact Option.noConfusion ((show hexVal '\n' = none by decide) ▸ h)
    · exact Option.noConfusion ((show hexVal '\r' = none by decide) ▸ h)
    · exact Option.noConfusion ((show hexVal '\x0b' = none by decide) ▸ h)
    · exact Option.noConfusion ((show hexVal '\x0c' = none by decide) ▸ h)

theorem pyIntHex16_pair (a b : Char) (da db : ℕ) (ha : hexVal a = some da)
    (hb : hexVal b = some db) :
    pyIntHex16 [a, b] = some ((16 * da + db : ℕ) : ℤ) := by
  have hsp : pyStrip [a, b] = [a, b] := by
    refine pyStrip_eq_self _ fun c hc => ?_
    rcases List.mem_cons.mp hc with rfl | hc2
    · exact hexVal_not_space c da ha
    · rcases List.mem_cons.mp hc2 with rfl | hc3
      · exact hexVal_not_space c db hb
      · simp at hc3
  have hna : a ≠ '+' := hexVal_ne a da ha '+' (by decide)
  have hnm : a ≠ '-' := hexVal_ne a da ha '-' (by decide)
  have hnu : a ≠ '_' := hexVal_ne a da ha '_' (by decide)
  have hbx : b ≠ 'x' := hexVal_ne b db hb 'x' (by decide)
  have hbX : b ≠ 'X' := hexVal_ne b db hb 'X' (by decide)
  have hbu : b ≠ '_' := hexVal_ne b db hb '_' (by decide)
  simp only [pyIntHex16, hsp]
  rw [if_neg hna, if_neg hnm]
  simp only [parseHexBody]
  rw [if_neg (fun hand => hand.2.elim hbx hbX)]
  simp only [parseHexDigits]
  rw [if_neg hnu, ha]
  simp only [Option.bind, parseHexRest]
  rw [if_neg hbu, hb]
  rfl

theorem exists6 (l : List Char) (h : l.length = 6) :
    ∃ a b c d e f, l = [a, b, c, d, e, f] := by
  rcases l with _ | ⟨a, _ | ⟨b, _ | ⟨c, _ | ⟨d, _ | ⟨e, _ | ⟨f, rest⟩⟩⟩⟩⟩⟩ <;>
    simp_all

set_option maxRecDepth 8000 in
theorem toPyHex2_bounded : ∀ k : Fin 256,
    (toPyHex2 (k : ℤ)).toList.length = 2 ∧
    (toPyHex2 (k : ℤ)).toList.all isLowerHexDigit = true := by decide

theorem toPyHex2_form (n : ℤ) (h0 : 0 ≤ n) (h255 : n ≤ 255) :
    (toPyHex2 n).toList.length = 2 ∧
    (toPyHex2 n).toList.all isLowerHexDigit = true := by
  have hn : n = ((⟨n.toNat, by omega⟩ : Fin 256) : ℤ) := by
    simp [Int.toNat_of_nonneg h0]
  rw [hn]
  exact toPyHex2_bounded _

theorem upscaled_bound (x : ℚ) (h0 : 0 ≤ x) (h1 : x ≤ 1) :
    0 ≤ ⌊(1 / 2 : ℚ) + x * 255⌋ ∧ ⌊(1 / 2 : ℚ) + x * 255⌋ ≤ 255 := by
  constructor
  · exact Int.floor_nonneg.mpr (by linarith)
  · have h2 : ⌊(1 / 2 : ℚ) + x * 255⌋ < 256 :=
      Int.floor_lt.mpr (by push_cast; linarith)
    omega

theorem chunk_isSome (l : List Char) (hlen : l.length = 6)
    (hall : ∀ ch ∈ l, (hexVal ch).isSome = true) :
    (pyIntHex16 (l.take 2)).isSome = true ∧
    (pyIntHex16 ((l.drop 2).take 2)).isSome = true ∧
    (pyIntHex16 (l.drop 4)).isSome = true := by
  obtain ⟨a, b, c, d, e, f, rfl⟩ := exists6 l hlen
  obtain ⟨da, hda⟩ := Option.isSome_iff_exists.mp (hall a (by simp))
  obtain ⟨db, hdb⟩ := Option.isSome_iff_exists.mp (hall b (by simp))
  obtain ⟨dc, hdc⟩ := Option.isSome_iff_exists.mp (hall c (by simp))
  obtain ⟨dd, hdd⟩ := Option.isSome_iff_exists.mp (hall d (by simp))
  obtain ⟨de, hde⟩ := Option.isSome_iff_exists.mp (hall e (by simp))
  obtain ⟨df, hdf⟩ := Option.isSome_iff_exists.mp (hall f (by simp))
  refine ⟨?_, ?_, ?_⟩
  · rw [show [a, b, c, d, e, f].take 2 = [a, b] from rfl,
      pyIntHex16_pair a b da db hda hdb]
    rfl
  · rw [show ([a, b, c, d, e, f].drop 2).take 2 = [c, d] from rfl,
      pyIntHex16_pair c d dc dd hdc hdd]
    rfl
  · rw [show [a, b, c, d, e, f].drop 4 = [e, f] from rfl,
      pyIntHex16_pair e f de df hde hdf]
    rfl

/-- C8 (amended): hex export produces a lowercase `'#RRGGBB'` string for
every color with channels in [0, 1]; hex import accepts every string of
an optional leading `'#'` followed by exactly 6 hexadecimal digits,
case-insensitively — but it also accepts some strings outside that
grammar (surrounding whitespace, or `'+'`/`'-'`/space characters inside
the two-character channel chunks, e.g. `"+f+f+f"`); other malformed
inputs fail with the `FormatError` kind, except an input that strips to
the empty string, which fails with `IndexError`. -/
theorem rgb_hex_amended :
    (∀ r g b : ℚ, 0 ≤ r → r ≤ 1 → 0 ≤ g → g ≤ 1 → 0 ≤ b → b ≤ 1 →
      specLowerHexForm (get_rgb_hex r g b) = true) ∧
    (∀ s : String, specHexGrammar s = true → (new_from_rgb_hex s).isOk = true) ∧
    (new_from_rgb_hex "+f+f+f").isOk = true ∧
    new_from_rgb_hex "zzzzzz" = .error .formatError ∧
    new_from_rgb_hex "#fffff" = .error .formatError ∧
    new_from_rgb_hex "" = .error .indexError := by
  refine ⟨?_, ?_, by decide, by decide, by decide, by decide⟩
  · intro r g b h0r h1r h0g h1g h0b h1b
    obtain ⟨hr0, hr1⟩ := upscaled_bound r h0r h1r
    obtain ⟨hg0, hg1⟩ := upscaled_bound g h0g h1g
    obtain ⟨hb0, hb1⟩ := upscaled_bound b h0b h1b
    obtain ⟨lR, aR⟩ := toPyHex2_form _ hr0 hr1
    obtain ⟨lG, aG⟩ := toPyHex2_form _ hg0 hg1
    obtain ⟨lB, aB⟩ := toPyHex2_form _ hb0 hb1
    have hlist : (get_rgb_hex r g b).toList =
        '#' :: ((toPyHex2 ⌊(1 / 2 : ℚ) + r * 255⌋).toList ++
          ((toPyHex2 ⌊(1 / 2 : ℚ) + g * 255⌋).toList ++
            (toPyHex2 ⌊(1 / 2 : ℚ) + b * 255⌋).toList)) := by
      simp [get_rgb_hex, get_rgb_upscaled, String.toList, String.data_append]
    simp only [specLowerHexForm, hlist]
    rw [List.all_append, List.all_append, aR, aG, aB,
      List.length_append, List.length_append, lR, lG, lB]
    simp
  · intro s hg
    rcases hl : s.toList with _ | ⟨c0, rest⟩
    · simp only [specHexGrammar, hl] at hg
      exact Bool.noConfusion hg
    · simp only [specHexGrammar, hl, decide_eq_true_eq] at hg
      obtain ⟨hlen, hall⟩ := hg
      rw [List.all_eq_true] at hall
      have hall' : ∀ ch ∈ (if c0 = '#' then rest else c0 :: rest),
          (hexVal ch).isSome = true := fun ch hch => hall ch hch
      have hnospace : ∀ c ∈ c0 :: rest, isPySpace c = false := by
        intro c hc
        by_cases hc0 : c0 = '#'
        · subst hc0
          rcases List.mem_cons.mp hc with rfl | hc2
          · decide
          · obtain ⟨d, hd⟩ := Option.isSome_iff_exists.mp
              (hall' c (by rw [if_pos rfl]; exact hc2))
            exact hexVal_not_space c d hd
        · obtain ⟨d, hd⟩ := Option.isSome_iff_exists.mp
            (hall' c (by rw [if_neg hc0]; exact hc))
          exact hexVal_not_space c d hd
      have hstrip : pyStrip s.toList = c0 :: rest := by
        rw [hl]; exact pyStrip_eq_self _ hnospace
      obtain ⟨h1, h2, h3⟩ := chunk_isSome _ hlen hall'
      obtain ⟨v1, hv1⟩ := Option.isSome_iff_exists.mp h1
      obtain ⟨v2, hv2⟩ := Option.isSome_iff_exists.mp h2
      obtain ⟨v3, hv3⟩ := Option.isSome_iff_exists.mp h3
      by_cases hc0 : c0 = '#'
      · subst hc0
        rw [if_pos rfl] at hlen hv1 hv2 hv3
        simp only [new_from_rgb_hex, hstrip, eq_self_iff_true, if_true]
        rw [if_neg (by simp [hlen]), hv1, hv2, hv3]
        rfl
      · rw [if_neg hc0] at hlen hv1 hv2 hv3
        simp only [new_from_rgb_hex, hstrip, if_neg hc0]
        rw [if_neg (by simp [hlen]), hv1, hv2, hv3]
        rfl

/-- Counterexample to C8 as stated: the malformed string `"+f+f+f"` —
not an optional `'#'` followed by 6 hexadecimal digits — is accepted by
`new_from_rgb_hex` instead of failing with a `FormatError`. -/
theorem hex_import_counterexample :
    (new_from_rgb_hex "+f+f+f").isOk = true ∧
    specHexGrammar "+f+f+f" = false := by
  exact ⟨by decide, by decide⟩

/-- Closed witness for `rgb_hex_amended`. -/
theorem rgb_hex_witness :
    specLowerHexForm (get_rgb_hex (123 / 255) (200 / 255) (50 / 255)) = true ∧
    (new_from_rgb_hex "#7BC832").isOk = true :=
  ⟨rgb_hex_amended.1 (123 / 255) (200 / 255) (50 / 255) (by norm_num)
      (by norm_num) (by norm_num) (by norm_num) (by norm_num) (by norm_num),
   rgb_hex_amended.2.1 "#7BC832" (by decide)⟩

theorem convert_color_tag (E : Ext) (c : CColor) (tgt : CType) (thr : RGBT)
    (til : Option String) (out : CColor) (n : ℕ)
    (h : convert_color E c tgt thr til = .ok (out, n))
    (hthr : effectiveThrough tgt thr ≠ .srgb) :
    out.throughRGB = some (effectiveThrough tgt thr) := by
  simp only [convert_color] at h
  split at h
  · exact Except.noConfusion h
  · split at h
    · exact Except.noConfusion h
    · rw [if_pos hthr] at h
      injection h with h2
      injection h2 with h3 h4
      rw [← h3]

/-- C1 (amended): when the caller does not explicitly override and the
color remembers an RGB profile, the executor selects the remembered
profile as the working RGB profile; on completion, the returned value is
tagged with the through-RGB profile exactly when the (target-normalised)
`through_rgb_type` differs from the default — i.e. when the caller
overrode it or the target is a non-sRGB RGB space, but not when a
non-default profile was used only via the color's memory; and for the
round trip, converting XYZ to HSL via Adobe RGB tags the HSL result with
Adobe RGB, so converting it back to XYZ without re-specifying a profile
produces exactly the value of the explicit Adobe-RGB reverse conversion
(not an sRGB-derived one). -/
theorem through_rgb_memory_amended :
    (∀ p : RGBT, selectTargetRGB .srgb (some p) = p) ∧
    (∀ (E : Ext) (c : CColor) (tgt : CType) (thr : RGBT) (til : Option String)
      (out : CColor) (n : ℕ),
      convert_color E c tgt thr til = .ok (out, n) →
      effectiveThrough tgt thr ≠ .srgb →
      out.throughRGB = some (effectiveThrough tgt thr)) ∧
    (∀ (E : Ext) (x y z : ℚ) (il ob : String) (tg : Option RGBT)
      (til : Option String) (hc : CColor) (n : ℕ),
      convert_color E ⟨.xyz ⟨x, y, z, il, ob⟩, tg⟩ .hslT .adobe til =
        .ok (hc, n) →
      hc.throughRGB = some .adobe ∧
      (convert_color E hc .xyzT .srgb none).map (fun p => p.1.val) =
        (convert_color E hc .xyzT .adobe none).map (fun p => p.1.val)) := by
  refine ⟨fun p => rfl, convert_color_tag, ?_⟩
  intro E x y z il ob tg til hc n h
  obtain ⟨v, t⟩ := hc
  have ht' : t = some .adobe :=
    convert_color_tag E _ .hslT .adobe til _ n h (by decide)
  subst ht'
  refine ⟨rfl, ?_⟩
  have hval : v = ColorV.hsl (RGB_to_HSL (XYZ_to_RGB E ⟨x, y, z, il, ob⟩
      .adobe)) := by
    simp only [convert_color, getConversionPath, ctypeOf] at h
    rw [show getConversionPathG conversionGraph .xyzT .hslT =
      .ok [.xyzToRGB, .rgbToHSL] from by decide] at h
    simp only [effectiveThrough, selectTargetRGB] at h
    rw [if_pos (by decide : RGBT.adobe ≠ RGBT.srgb)] at h
    simp only [runPath, primApply, Except.map] at h
    rw [if_pos (by decide : RGBT.adobe ≠ RGBT.srgb)] at h
    injection h with h2
    injection h2 with h3 h4
    injection h3 with h5 h6
    exact h5.symm
  subst hval
  have key : ∀ o : Except CErr (CColor × Nat),
      (Except.map (fun p => p.1.val)
        (match o with
         | .error e => (Except.error (ConvertErr.prim e) :
             Except ConvertErr (CColor × Nat))
         | .ok (nc, m) => .ok (nc, m))) =
      (Except.map (fun p => p.1.val)
        (match o with
         | .error e => (Except.error (ConvertErr.prim e) :
             Except ConvertErr (CColor × Nat))
         | .ok (nc, m) => .ok ({nc with throughRGB := some .adobe}, m))) := by
    intro o
    rcases o with e | ⟨⟨ncv, nct⟩, m⟩ <;> rfl
  exact key (runPath E [.hslToRGB, .rgbToXYZ]
    ⟨.hsl (RGB_to_HSL (XYZ_to_RGB E ⟨x, y, z, il, ob⟩ .adobe)), some .adobe⟩
    .adobe none)

/-- Counterexample to C1 as stated: an HSL color remembering the Adobe
RGB profile, converted to Lab with no explicit override, has the
non-default Adobe profile selected as the working RGB profile for the
chain — yet the returned Lab value carries no through-RGB tag, so the
"tagged whenever a non-default profile was used anywhere in the chain"
clause fails. -/
theorem through_rgb_tagging_counterexample :
    selectTargetRGB .srgb (some .adobe) = .adobe ∧
    RGBT.adobe ≠ .srgb ∧
    (convert_color extZero ⟨.hsl ⟨0, 0, 0⟩, some .adobe⟩ .labT .srgb none).map
      (fun p => p.1.throughRGB) = .ok none :=
  ⟨rfl, by decide, by decide⟩

/-- Closed witness for `through_rgb_memory_amended`, applying its
round-trip clause at XYZ(0, 0, 0) under D65/2°. -/
theorem through_rgb_memory_witness :
    (⟨.hsl (RGB_to_HSL (XYZ_to_RGB extZero ⟨0, 0, 0, "d65", "2"⟩ .adobe)),
        some .adobe⟩ : CColor).throughRGB = some .adobe ∧
    (convert_color extZero ⟨.hsl (RGB_to_HSL (XYZ_to_RGB extZero
        ⟨0, 0, 0, "d65", "2"⟩ .adobe)), some .adobe⟩ .xyzT .srgb none).map
      (fun p => p.1.val) =
    (convert_color extZero ⟨.hsl (RGB_to_HSL (XYZ_to_RGB extZero
        ⟨0, 0, 0, "d65", "2"⟩ .adobe)), some .adobe⟩ .xyzT .adobe none).map
      (fun p => p.1.val) :=
  through_rgb_memory_amended.2.2 extZero 0 0 0 "d65" "2" none none _ 2 (by rfl)

end Colormath
